import Mathlib

/-!
Shallow embedding of the SiriDB manage tool (siridb-manage) provisioning core,
translated from src/main.py, src/constants.py and src/settings.py.

Conventions of the embedding:
* Python strings are Lean `String`, byte strings are `List Nat`.
* qpack-serialisable values are the inductive `Qval`; a file whose on-disk
  bytes are the qpack encoding of a value `v` is modelled as `FileData.qp v`,
  so a byte-for-byte copy of such a file is equality of the `FileData` value.
* The database directory is modelled as an association list `FS` of
  file name to `FileData`; a write prepends (so it shadows older entries).
* Exceptions become explicit error values; `sys.exit(n)` becomes an
  `ExitKind.code n` outcome, and an exception that no handler catches
  becomes `ExitKind.unhandled` (CPython then terminates with a traceback).
* External interactions of `create_and_register_server` (the RPC client,
  the local server, the interactive prompt) are an explicit environment
  record `Env` whose fields give the result of each interaction.
-/

namespace SiriDBManage

/-! ## constants.py -/

/-- DURATIONS table of constants.py, mapping a symbolic span to its base
seconds (the descriptive text of each entry is irrelevant here). -/
def DURATIONS (s : String) : Option Nat :=
  if s = "1h" then some 3600
  else if s = "2h" then some 7200
  else if s = "6h" then some 21600
  else if s = "12h" then some 43200
  else if s = "1d" then some 86400
  else if s = "2d" then some 172800
  else if s = "4d" then some 345600
  else if s = "1w" then some 604800
  else if s = "10d" then some 864000
  else if s = "2w" then some 1209600
  else if s = "4w" then some 2419200
  else none

def DEFAULT_TIMEZONE : String := "NAIVE"

def DEFAULT_BUFFER_SIZE : Nat := 1024

def MAX_BUFFER_SIZE : Nat := 10485760

def DEFAULT_DROP_THRESHOLD : Rat := 1

/-- Modelled from the spec: main.py imports MAX_NUMBER_DB from constants.py,
but the constant is absent from the constants source in the repository
snapshot; the spec fixes the maximum number of databases at 4. -/
def MAX_NUMBER_DB : Nat := 4

/-! ## The database-name regular expression

constants.py compiles the pattern
`^[a-zA-Z][a-zA-Z0-9-_]\x7b,18\x7d[a-zA-Z0-9]$` and main.py applies it with
`re.match`.  In Python `re`, the hyphen after the range 0-9 is a literal
hyphen, and the dollar anchor matches at the end of the string or just
before one newline that ends the string.  `dbname_core` decides whether the
pattern consumes a character list exactly; `dbname_regex_match` adds the
anchor semantics (an optional single trailing newline). -/

def isAsciiLetter (c : Char) : Bool :=
  (decide ('a' ≤ c) && decide (c ≤ 'z')) || (decide ('A' ≤ c) && decide (c ≤ 'Z'))

def isAsciiAlnum (c : Char) : Bool :=
  isAsciiLetter c || (decide ('0' ≤ c) && decide (c ≤ '9'))

/-- Character class of the middle part of the name pattern:
letters, digits, hyphen and underscore. -/
def isNameMid (c : Char) : Bool :=
  isAsciiAlnum c || (c == '-') || (c == '_')

/-- Matches the tail `[a-zA-Z0-9-_]{i}[a-zA-Z0-9]` for some i up to the
given budget, consuming the whole list. -/
def dbname_tail : Nat → List Char → Bool
  | _, [] => false
  | _, [c] => isAsciiAlnum c
  | 0, _ :: _ :: _ => false
  | k + 1, c :: c2 :: rest => isNameMid c && dbname_tail k (c2 :: rest)

/-- The full pattern consuming exactly the given character list. -/
def dbname_core (l : List Char) : Bool :=
  match l with
  | [] => false
  | c :: rest => isAsciiLetter c && dbname_tail 18 rest

/-- Python re.match of DBNAME_VALID_NAME on a string: the pattern must
consume the whole string, or the whole string minus one final newline
(dollar-anchor semantics of Python re). -/
def dbname_regex_match (s : String) : Bool :=
  dbname_core s.data ||
    ((s.data.getLast? == some '\n') && dbname_core s.data.dropLast)

/-- check_valid_dbname of main.py restricted to string inputs: raises
ValueError iff the regex does not match; here the Bool is acceptance. -/
def check_valid_dbname (s : String) : Bool :=
  dbname_regex_match s

/-! ## Durations and time precision (main.py get_time_precision, get_duration) -/

/-- A duration argument may be an integer or a symbolic span string. -/
inductive Dur where
  | int (n : Int)
  | str (s : String)

/-- get_time_precision of main.py: index of the precision in the list. -/
def get_time_precision (s : String) : Nat :=
  (["s", "ms", "us", "ns"]).indexOf s

/-- get_duration of main.py: integers pass through unchanged, a string is
looked up in DURATIONS and scaled by 1000 to the power of the precision
index; none models the KeyError for an unknown span string. -/
def get_duration (tp : Nat) (d : Dur) : Option Int :=
  match d with
  | .int n => some n
  | .str s => (DURATIONS s).map fun base => (base : Int) * (1000 : Int) ^ tp

/-! ## qpack values and the database directory -/

/-- Values serialisable with qpack, as used for database.dat and
servers.dat.  `bytesOfStr s` stands for the utf-8 bytes of `s`. -/
inductive Qval where
  | int (n : Int)
  | str (s : String)
  | bytes (b : List Nat)
  | bytesOfStr (s : String)
  | float (q : Rat)
  | arr (l : List Qval)

/-- Contents of one file in the database directory. -/
inductive FileData where
  | text (s : String)
  | qp (v : Qval)
  | raw (b : List Nat)

/-- The database directory: newest write first. -/
def FS : Type := List (String × FileData)

def fsWrite (fs : FS) (n : String) (d : FileData) : FS :=
  (n, d) :: fs

def fsRead : FS → String → Option FileData
  | [], _ => none
  | e :: t, n => if e.1 = n then some e.2 else fsRead t n

theorem fsRead_fsWrite (fs : FS) (n m : String) (d : FileData) :
    fsRead (fsWrite fs n d) m = if n = m then some d else fsRead fs m := rfl

/-! ## The config file template (constants.py DEFAULT_CONFIG)

The template text contains exactly one placeholder, buffer_path, inside the
buffer section; str.format with the config mapping therefore substitutes
only that key and ignores every other key in the mapping. -/

def CONFIG_HEAD : String :=
  "\n# Welcome to the SiriDB options file\n#\n" ++
  "# Network access can be controlled with query commands. By default only\n" ++
  "# localhost has access to the database.\n" ++
  "# You might want to add another network/IP and you can do this with the\n" ++
  "# following command:\n#\n" ++
  "#    curl -X POST -d 'q=grant full to network \"192.168.10.0/24\"' \\\n" ++
  "#        -d 'd=my_database' -d 'u=siri' -d 'p=iris' \\\n" ++
  "#        'http://localhost:port/query'\n#\n" ++
  "# Note: the user name and password used above are the defaults, maybe you have\n" ++
  "#       changed them...\n#\n\n[buffer]\n" ++
  "# Path used to save the buffer files.\n" ++
  "# In case you later plan to change this location you have to manually move the\n" ++
  "# buffer file to the new location.\npath = "

/-- DEFAULT_CONFIG.format with a mapping whose buffer_path entry is the
given path: only the buffer_path placeholder occurs in the template. -/
def format_default_config (buffer_path : String) : String :=
  CONFIG_HEAD ++ buffer_path ++ "\n\n"

/-! ## create_database (main.py lines 65-120) -/

/-- The config mapping passed to create_database by its callers: a
buffer_path entry (always present in practice, overriding the dbpath
default) and optionally a buffer_size entry, which the template never
references. -/
structure Cfg where
  buffer_path : Option String
  buffer_size : Option Nat

/-- Python exceptions create_database can raise before writing anything. -/
inductive PyErr where
  | invalidName
  | invalidPrecision
  | unknownDuration

/-- create_database of main.py.  Parameters appear in source order; callers
that omit a keyword argument pass the Python default at the call site
(time_precision ms, duration_log 1d, duration_num 1w, timezone NAIVE,
drop_threshold 1.0, buffer_size DEFAULT_BUFFER_SIZE, pool 0).  The result
is the directory contents after the call together with the raised
exception, if any; all validation precedes the first file open, so on an
error the directory is returned untouched. -/
def create_database (fs : FS) (dbname dbpath : String)
    (time_precision : String) (duration_log duration_num : Dur)
    (timezone : String) (drop_threshold : Rat) (buffer_size : Nat)
    (config : Cfg) (uid : List Nat) (pool : Nat) : FS × Option PyErr :=
  if check_valid_dbname dbname = false then (fs, some .invalidName)
  else
    let buffer_path := match config.buffer_path with
      | some p => p
      | none => dbpath
    if (["s", "ms", "us", "ns"]).contains time_precision = false then
      (fs, some .invalidPrecision)
    else
      let tp := get_time_precision time_precision
      match get_duration tp duration_num with
      | none => (fs, some .unknownDuration)
      | some dnum =>
        match get_duration tp duration_log with
        | none => (fs, some .unknownDuration)
        | some dlog =>
          let fs1 := fsWrite fs "database.conf"
            (.text (format_default_config buffer_path))
          let db_obj : Qval := .arr [
            .int 1,
            .bytes uid,
            .str dbname,
            .int tp,
            .int buffer_size,
            .int dnum,
            .int dlog,
            .str timezone,
            .float drop_threshold]
          let fs2 := fsWrite fs1 "database.dat" (.qp db_obj)
          let _ := pool
          (fs2, none)

/-! ## Remote info and version check (main.py lines 271-330) -/

/-- SiriDBInfo of main.py: version string and list of database names. -/
structure SiriDBInfo where
  version : String
  dblist : List String

/-- Exceptions set_remote_siridb_info can raise (all RuntimeError). -/
inductive RemoteErr where
  | unreachable
  | noDatabases
  | versionMismatch
deriving DecidableEq

/-- set_remote_siridb_info of main.py.  `fetched` is the result of the
async_server_info call (none when it raised), `prev_remote` the value the
global remote_siridb_info had before (it survives across retries).  The
result is the new value of the global plus the raised error, if any.  The
version test of the source compares the two full version strings. -/
def set_remote_siridb_info (local_info : SiriDBInfo)
    (prev_remote : Option SiriDBInfo) (fetched : Option SiriDBInfo) :
    Option SiriDBInfo × Option RemoteErr :=
  let remote := match fetched with
    | some r => some r
    | none => prev_remote
  match remote with
  | none => (none, some .unreachable)
  | some r =>
    if r.dblist.isEmpty then (some r, some .noDatabases)
    else if local_info.version = r.version then (some r, none)
    else (some r, some .versionMismatch)

/-- Splitting a character list on the dot separator, the components in
order (an executable clone of splitting a version string on dots). -/
def split_on_dot : List Char → List (List Char)
  | [] => [[]]
  | c :: rest =>
    let r := split_on_dot rest
    if c = '.' then [] :: r
    else
      match r with
      | h :: t => (c :: h) :: t
      | [] => [[c]]

/-- The version-parity rule in the words of the spec: compare the
major.minor components only, ignoring any further components. -/
def validate_version_parity_spec (lv rv : String) : Bool :=
  (split_on_dot lv.data).take 2 == (split_on_dot rv.data).take 2

/-- check_dbname of main.py (lines 312-319): name pattern, then duplicate
test against the local database list, then the capacity test.  The Bool is
acceptance (no exception raised). -/
def check_dbname (dblist : List String) (s : String) : Bool :=
  check_valid_dbname s && !(decide (s ∈ dblist)) &&
    decide (dblist.length < MAX_NUMBER_DB)

/-! ## Pool planning (main.py lines 636-642 and 956-969) -/

/-- Rejections of the scripted pool selection (both ValueError). -/
inductive PoolErr where
  | notExists
  | notOneServer
deriving DecidableEq

/-- The dict comprehension of parse_create_replica_or_pool mapping pool id
to server count; a later entry for the same id overwrites an earlier one,
hence the lookup scans from the right. -/
def pools_dict (pools : List (Nat × Nat × Nat)) (p : Nat) : Option Nat :=
  ((pools.map fun t => (t.1, t.2.1)).reverse.find? fun e => e.1 == p).map
    fun e => e.2

/-- Pool assignment: with no target (create-pool, and interactive
create_new_pool) the new pool id is the number of existing pools; with a
target (create-replica) the id must be present with exactly one server. -/
def plan_pool_assignment (pools : List (Nat × Nat × Nat))
    (target : Option Nat) : Except PoolErr Nat :=
  match target with
  | none => .ok pools.length
  | some p =>
    match pools_dict pools p with
    | none => .error .notExists
    | some n => if n = 1 then .ok p else .error .notOneServer

/-! ## create_and_register_server (main.py lines 533-633)

The function is split into the phases of the source: the persisting call to
create_database, the metadata replication (fetch and copy the three files,
optional reindex marker, append of the new server record), the server
status check, the load command, the load confirmation, and the
registration loop.  Every interaction with the outside is read from an
explicit environment. -/

/-- Visible external actions, in the order the function performs them. -/
inductive Action where
  | fetchFile (name : String)
  | checkServerStatus
  | loadDb
  | checkLoaded
  | registerServer
deriving DecidableEq

/-- One registration attempt: success, or failure followed by the
interactive retry-or-quit answer (the answer is ignored in scripted mode). -/
inductive RegStep where
  | ok
  | fail (retry : Bool)

/-- Result of the registration loop. -/
inductive RegOutcome where
  | registered
  | rollback0
  | rollback1
  | diverge
deriving DecidableEq

/-- The while loop around siri._register_server: on failure with
allow_retry the user chooses retry or quit, where quit calls rollback with
exit code 0; without allow_retry any failure calls rollback with exit
code 1.  An exhausted step list means the modelled run never ended. -/
def register_loop (allow_retry : Bool) : List RegStep → List Action × RegOutcome
  | [] => ([], .diverge)
  | RegStep.ok :: _ => ([.registerServer], .registered)
  | RegStep.fail retry :: rest =>
    if allow_retry then
      if retry then
        let r := register_loop allow_retry rest
        (.registerServer :: r.1, r.2)
      else ([.registerServer], .rollback0)
    else ([.registerServer], .rollback1)

/-- Environment of one create_and_register_server run: result of
siri._get_file per file name, the rows of the list-servers query, whether
the load command succeeded (false models a timeout or transport error,
which raises), the local database list seen by check_loaded afterwards,
and the registration attempts. -/
structure Env where
  files : String → Except Unit FileData
  servers_status : List (String × String)
  load_ok : Bool
  dblist_after_load : List String
  reg_steps : List RegStep

/-- How the process run ends. -/
inductive ExitKind where
  | code (n : Nat)
  | unhandled
  | pending
deriving DecidableEq

/-- Observable outcome: process exit, whether the created directory still
exists, its contents when it does, and the trace of external actions. -/
structure Outcome where
  exit : ExitKind
  dirExists : Bool
  fs : FS
  trace : List Action

/-- Result of the metadata replication phase. -/
inductive RMRes where
  | ok (fs : FS)
  | rollback1
  | unhandledWith (fs : FS)

def fetch3 : List Action :=
  [.fetchFile "servers.dat", .fetchFile "users.dat", .fetchFile "groups.dat"]

/-- Lines 562-586: fetch servers.dat, users.dat, groups.dat from the
remote and write each into the directory (a ServerError on a fetch calls
rollback with exit 1); write the empty .reindex marker when the target is
a new pool; read servers.dat back, append the record
[uuid bytes, address bytes, port, pool] and rewrite it.  A servers.dat
that does not decode to a list would raise outside any handler. -/
def replicate_metadata (env : Env) (fs : FS) (uid : List Nat)
    (address : String) (port pool : Nat) (new_pool : Bool) :
    List Action × RMRes :=
  match env.files "servers.dat" with
  | .error _ => ([.fetchFile "servers.dat"], .rollback1)
  | .ok sv =>
    let fs1 := fsWrite fs "servers.dat" sv
    match env.files "users.dat" with
    | .error _ => ([.fetchFile "servers.dat", .fetchFile "users.dat"], .rollback1)
    | .ok us =>
      let fs2 := fsWrite fs1 "users.dat" us
      match env.files "groups.dat" with
      | .error _ => (fetch3, .rollback1)
      | .ok gr =>
        let fs3 := fsWrite fs2 "groups.dat" gr
        let fs4 := if new_pool then fsWrite fs3 ".reindex" (.raw []) else fs3
        match fsRead fs4 "servers.dat" with
        | some (.qp (.arr l)) =>
          let server : Qval := .arr [.bytes uid, .bytesOfStr address,
            .int port, .int pool]
          (fetch3, .ok (fsWrite fs4 "servers.dat" (.qp (.arr (l ++ [server])))))
        | _ => (fetch3, .unhandledWith fs4)

/-- Lines 588-633 after the metadata phase: the status check over the
list-servers rows (any row not running calls rollback with exit 1), the
load command (whose failure is an uncaught exception: no rollback, the
directory stays), the load confirmation (failure calls rollback with exit
1), and the registration loop; a registered server ends the process with
exit code 0 and the directory in place. -/
def after_metadata (env : Env) (dbname : String) (fs5 : FS)
    (tr1 : List Action) (allow_retry : Bool) : Outcome :=
  if (env.servers_status.all fun s => s.2 == "running") = false then
    ⟨.code 1, false, [], tr1⟩
  else
    let tr2 := tr1 ++ [.loadDb]
    if env.load_ok = false then ⟨.unhandled, true, fs5, tr2⟩
    else
      let tr3 := tr2 ++ [.checkLoaded]
      if env.dblist_after_load.contains dbname = false then
        ⟨.code 1, false, [], tr3⟩
      else
        let r := register_loop allow_retry env.reg_steps
        let tr4 := tr3 ++ r.1
        match r.2 with
        | .registered => ⟨.code 0, true, fs5, tr4⟩
        | .rollback0 => ⟨.code 0, false, [], tr4⟩
        | .rollback1 => ⟨.code 1, false, [], tr4⟩
        | .diverge => ⟨.pending, true, fs5, tr4⟩

/-- The phases after the persisting step succeeded with directory fs0. -/
def after_persist (env : Env) (dbname : String) (fs0 : FS) (uid : List Nat)
    (address : String) (port pool : Nat) (new_pool allow_retry : Bool) :
    Outcome :=
  match replicate_metadata env fs0 uid address port pool new_pool with
  | (tr, .rollback1) => ⟨.code 1, false, [], tr⟩
  | (tr, .unhandledWith fsu) => ⟨.unhandled, true, fsu, tr⟩
  | (tr, .ok fs5) =>
    after_metadata env dbname fs5 (tr ++ [.checkServerStatus]) allow_retry

/-- create_and_register_server of main.py.  The directory was created
empty by mk_path before the call; create_database is called with the
properties fetched from the remote and without a buffer_size argument, so
the Python default DEFAULT_BUFFER_SIZE applies.  An exception from
create_database itself is uncaught (the directory, already created by
mk_path, stays). -/
def create_and_register_server (env : Env) (dbname dbpath : String)
    (time_precision : String) (duration_log duration_num : Dur)
    (timezone : String) (drop_threshold : Rat) (cfg : Cfg)
    (uid : List Nat) (address : String) (port pool : Nat)
    (new_pool allow_retry : Bool) : Outcome :=
  let p := create_database [] dbname dbpath time_precision duration_log
    duration_num timezone drop_threshold DEFAULT_BUFFER_SIZE cfg uid pool
  if p.2.isSome then ⟨.unhandled, true, p.1, []⟩
  else after_persist env dbname p.1 uid address port pool new_pool allow_retry

/-! ## Theorems -/

/-- C5: get_duration returns every integer input unchanged; for every
symbolic span present in the DURATIONS table it returns the base seconds
scaled by 1000 to the power of the time-precision index; in particular 1w
at millisecond precision (index 1) gives 604800000. -/
theorem C5_resolve_duration :
    (∀ (tp : Nat) (n : Int), get_duration tp (.int n) = some n) ∧
    (∀ (tp : Nat) (s : String) (base : Nat), DURATIONS s = some base →
      get_duration tp (.str s) = some ((base : Int) * (1000 : Int) ^ tp)) ∧
    get_duration 1 (.str "1w") = some 604800000 := by
  refine ⟨fun tp n => rfl, fun tp s base h => ?_, rfl⟩
  simp [get_duration, h]

/-- Witness for C5 at a concrete table entry: 1h at microsecond
precision. -/
theorem C5_resolve_duration_witness :
    get_duration 2 (.str "1h") = some ((3600 : Int) * (1000 : Int) ^ 2) :=
  C5_resolve_duration.2.1 2 "1h" 3600 rfl

/-- C4: planning with no target pool assigns the count of existing pools
as the new pool id (so topology [(0,2,100)] gives id 1); with a target
pool id the request succeeds exactly when the id exists in the topology
with exactly one member server, returning that id, and is otherwise
rejected (nonexistent id, or a pool that already has 2 servers). -/
theorem C4_pool_assignment :
    (∀ pools : List (Nat × Nat × Nat),
      plan_pool_assignment pools none = .ok pools.length) ∧
    (∀ (pools : List (Nat × Nat × Nat)) (p q : Nat),
      plan_pool_assignment pools (some p) = .ok q ↔
        (q = p ∧ pools_dict pools p = some 1)) ∧
    plan_pool_assignment [(0, 2, 100)] none = .ok 1 ∧
    plan_pool_assignment [(0, 2, 100)] (some 0) = .error .notOneServer ∧
    plan_pool_assignment [(0, 2, 100)] (some 5) = .error .notExists := by
  refine ⟨fun pools => rfl, fun pools p q => ?_, rfl, rfl, rfl⟩
  have hdef : plan_pool_assignment pools (some p) =
      (match pools_dict pools p with
        | none => Except.error PoolErr.notExists
        | some n => if n = 1 then Except.ok p
          else Except.error PoolErr.notOneServer) := rfl
  rw [hdef]
  cases h : pools_dict pools p with
  | none => simp
  | some n =>
    by_cases hn : n = 1
    · subst hn
      simp [eq_comm]
    · simp only [if_neg hn]
      constructor
      · intro h1
        exact absurd h1 (by simp)
      · rintro ⟨rfl, h2⟩
        exact absurd (Option.some.inj h2) hn

/-- C2 counterexample: the spec parity rule accepts local 2.0.3 against
remote 2.0.9 (equal major.minor), but the code raises the version error
for exactly this pair, because set_remote_siridb_info compares the full
version strings. -/
theorem C2_version_counterexample :
    validate_version_parity_spec "2.0.3" "2.0.9" = true ∧
    (set_remote_siridb_info ⟨"2.0.3", ["localdb"]⟩ none
        (some ⟨"2.0.9", ["remotedb"]⟩)).2 = some RemoteErr.versionMismatch := by
  exact ⟨by decide, rfl⟩

/-- C2 amended: once the remote info is fetched and its database list is
nonempty, the local-versus-remote version check of
set_remote_siridb_info passes exactly when the two full version strings
are equal, so any difference, patch level included, fails. -/
theorem C2_version_check_amended :
    ∀ (li r : SiriDBInfo) (prev : Option SiriDBInfo),
    r.dblist ≠ [] →
    ((set_remote_siridb_info li prev (some r)).2 = none ↔
      li.version = r.version) := by
  intro li r prev h
  unfold set_remote_siridb_info
  have he : r.dblist.isEmpty = false := by
    simpa [List.isEmpty_iff] using h
  by_cases hv : li.version = r.version <;> simp [he, hv]

/-- Witness for C2 amended: equal full versions pass the check. -/
theorem C2_version_check_amended_witness :
    (set_remote_siridb_info ⟨"2.0.3", ["a"]⟩ none
      (some ⟨"2.0.3", ["db"]⟩)).2 = none :=
  (C2_version_check_amended ⟨"2.0.3", ["a"]⟩ ⟨"2.0.3", ["db"]⟩ none
    (by decide)).mpr rfl

/-- C10: calling create_database with an invalid database name, with a
time precision outside s, ms, us, ns, or with a symbolic duration string
absent from the DURATIONS table raises before any file is opened, so the
target directory contents are exactly as they were before the call. -/
theorem C10_validation_precedes_writes :
    ∀ (fs : FS) (dbname dbpath tp : String) (dl dn : Dur) (tz : String)
      (dt : Rat) (bs : Nat) (cfg : Cfg) (uid : List Nat) (pool : Nat),
    (check_valid_dbname dbname = false ∨
     (["s", "ms", "us", "ns"]).contains tp = false ∨
     get_duration (get_time_precision tp) dn = none ∨
     get_duration (get_time_precision tp) dl = none) →
    (create_database fs dbname dbpath tp dl dn tz dt bs cfg uid pool).1 = fs ∧
    (create_database fs dbname dbpath tp dl dn tz dt bs cfg uid pool).2.isSome
      = true := by
  intro fs dbname dbpath tp dl dn tz dt bs cfg uid pool h
  unfold create_database
  cases hname : check_valid_dbname dbname with
  | false => simp
  | true =>
    simp only [Bool.true_eq_false, if_false]
    cases hpre : (["s", "ms", "us", "ns"]).contains tp with
    | false => simp
    | true =>
      simp only [Bool.true_eq_false, if_false]
      rcases h with h | h | h | h
      · rw [h] at hname
        exact Bool.noConfusion hname
      · rw [h] at hpre
        exact Bool.noConfusion hpre
      · rw [h]
        simp
      · cases hdn : get_duration (get_time_precision tp) dn with
        | none => simp
        | some dnum =>
          rw [h]
          simp

/-- Witness for C10: a one-character name is rejected with the directory
left untouched. -/
theorem C10_validation_precedes_writes_witness :
    (create_database [] "a" "/var/lib/siridb/a" "ms" (.str "1d") (.str "1w")
      "NAIVE" 1 1024 ⟨none, none⟩ [] 0).1 = [] ∧
    (create_database [] "a" "/var/lib/siridb/a" "ms" (.str "1d") (.str "1w")
      "NAIVE" 1 1024 ⟨none, none⟩ [] 0).2.isSome = true :=
  C10_validation_precedes_writes [] "a" "/var/lib/siridb/a" "ms" (.str "1d")
    (.str "1w") "NAIVE" 1 1024 ⟨none, none⟩ [] 0 (Or.inl (by decide))

/-- C8: on success create_database writes database.dat as the qpack record
[schema 1, uuid bytes, name, precision index, buffer size, duration_num,
duration_log, timezone, drop threshold] in exactly that order; the
create-new defaults (ms precision, duration_log 1d, duration_num 1w)
yield duration_num 604800000, duration_log 86400000 and schema 1. -/
theorem C8_descriptor_record :
    (∀ (fs : FS) (dbname dbpath tp : String) (dl dn : Dur) (tz : String)
       (dt : Rat) (bs : Nat) (cfg : Cfg) (uid : List Nat) (pool : Nat)
       (dnum dlog : Int),
      check_valid_dbname dbname = true →
      (["s", "ms", "us", "ns"]).contains tp = true →
      get_duration (get_time_precision tp) dn = some dnum →
      get_duration (get_time_precision tp) dl = some dlog →
      create_database fs dbname dbpath tp dl dn tz dt bs cfg uid pool =
        (fsWrite (fsWrite fs "database.conf"
            (.text (format_default_config (cfg.buffer_path.getD dbpath))))
          "database.dat"
          (.qp (.arr [.int 1, .bytes uid, .str dbname,
            .int (get_time_precision tp), .int bs, .int dnum, .int dlog,
            .str tz, .float dt])), none)) ∧
    fsRead (create_database [] "mydb" "/var/lib/siridb/mydb" "ms"
        (.str "1d") (.str "1w") DEFAULT_TIMEZONE DEFAULT_DROP_THRESHOLD
        DEFAULT_BUFFER_SIZE ⟨none, none⟩ (List.replicate 16 0) 0).1
      "database.dat" =
      some (.qp (.arr [.int 1, .bytes (List.replicate 16 0), .str "mydb",
        .int 1, .int 1024, .int 604800000, .int 86400000, .str "NAIVE",
        .float 1])) := by
  constructor
  · intro fs dbname dbpath tp dl dn tz dt bs cfg uid pool dnum dlog
      hname hpre hdn hdl
    have hmem : tp = "s" ∨ tp = "ms" ∨ tp = "us" ∨ tp = "ns" := by
      simpa using hpre
    cases hbp : cfg.buffer_path with
    | none =>
      simp [create_database, hname, hpre, hdn, hdl, hbp, Option.getD]
      tauto
    | some p =>
      simp [create_database, hname, hpre, hdn, hdl, hbp, Option.getD]
      tauto
  · rfl

/-- Witness for C8 at the scenario input of the claim. -/
theorem C8_descriptor_record_witness :
    create_database [] "mydb" "/var/lib/siridb/mydb" "ms" (.str "1d")
      (.str "1w") "NAIVE" 1 1024 ⟨none, none⟩ (List.replicate 16 0) 0 =
      (fsWrite (fsWrite [] "database.conf"
          (.text (format_default_config "/var/lib/siridb/mydb")))
        "database.dat"
        (.qp (.arr [.int 1, .bytes (List.replicate 16 0), .str "mydb",
          .int 1, .int 1024, .int 604800000, .int 86400000, .str "NAIVE",
          .float 1])), none) := by
  exact C8_descriptor_record.1 [] "mydb" "/var/lib/siridb/mydb" "ms"
    (.str "1d") (.str "1w") "NAIVE" 1 1024 ⟨none, none⟩
    (List.replicate 16 0) 0 604800000 86400000 (by decide) (by decide)
    rfl rfl

/-- Characterisation of the budgeted tail matcher: it accepts exactly the
nonempty lists of at most budget-plus-one characters whose last character
is alphanumeric and whose other characters are in the middle class. -/
theorem dbname_tail_iff : ∀ (k : Nat) (l : List Char),
    dbname_tail k l = true ↔
      (1 ≤ l.length ∧ l.length ≤ k + 1 ∧
       (∀ c ∈ l.dropLast, isNameMid c = true) ∧
       ∃ c, l.getLast? = some c ∧ isAsciiAlnum c = true) := by
  intro k l
  induction l generalizing k with
  | nil => simp [dbname_tail]
  | cons c rest ih =>
    cases rest with
    | nil =>
      simp [dbname_tail]
    | cons c2 rest2 =>
      cases k with
      | zero =>
        simp [dbname_tail]
      | succ k =>
        rw [show dbname_tail (k + 1) (c :: c2 :: rest2) =
          (isNameMid c && dbname_tail k (c2 :: rest2)) from rfl]
        rw [Bool.and_eq_true, ih k]
        rw [show (c :: c2 :: rest2).dropLast = c :: (c2 :: rest2).dropLast
          from rfl]
        rw [List.getLast?_cons_cons]
        simp only [List.mem_cons, List.length_cons]
        constructor
        · rintro ⟨hmid, -, hlen, hmids, hex⟩
          refine ⟨by omega, by omega, ?_, hex⟩
          rintro c' (rfl | hc')
          · exact hmid
          · exact hmids c' hc'
        · rintro ⟨-, hlen, hmids, hex⟩
          refine ⟨hmids c (Or.inl rfl), by omega, by omega, ?_, hex⟩
          exact fun c' hc' => hmids c' (Or.inr hc')

/-- The acceptance rule in the words of the claim: length between 2 and
20, first character a letter, last character alphanumeric, every interior
character a letter, digit, hyphen or underscore. -/
def claim_rule_list (l : List Char) : Bool :=
  decide (2 ≤ l.length) && decide (l.length ≤ 20) &&
  (match l.head? with
    | some c => isAsciiLetter c
    | none => false) &&
  (match l.getLast? with
    | some c => isAsciiAlnum c
    | none => false) &&
  (l.drop 1).dropLast.all isNameMid

/-- The claim rule applied to the characters of a string. -/
def claim_name_rule (s : String) : Bool :=
  claim_rule_list s.data

/-- The regex core and the claim rule agree on every character list. -/
theorem dbname_core_eq_claim_rule : ∀ l : List Char,
    dbname_core l = claim_rule_list l := by
  intro l
  cases l with
  | nil => rfl
  | cons c rest =>
    cases rest with
    | nil =>
      rw [show dbname_core [c] = (isAsciiLetter c && dbname_tail 18 [])
        from rfl]
      simp [dbname_tail, claim_rule_list]
    | cons c2 rest2 =>
      have hcore : dbname_core (c :: c2 :: rest2) =
          (isAsciiLetter c && dbname_tail 18 (c2 :: rest2)) := rfl
      rw [hcore]
      rcases hb : (isAsciiLetter c && dbname_tail 18 (c2 :: rest2)) with _ | _
      · rw [Bool.and_eq_false_iff] at hb
        symm
        rw [Bool.eq_false_iff]
        intro hr
        unfold claim_rule_list at hr
        simp only [Bool.and_eq_true, decide_eq_true_eq, List.head?_cons,
          List.getLast?_cons_cons, List.length_cons, List.all_eq_true] at hr
        obtain ⟨⟨⟨⟨-, hlen⟩, hhead⟩, hlast⟩, hmids⟩ := hr
        rcases hb with hb | hb
        · rw [hhead] at hb
          exact Bool.noConfusion hb
        · rw [(dbname_tail_iff 18 (c2 :: rest2)).mpr ?_] at hb
          · exact Bool.noConfusion hb
          · refine ⟨by simp, by simp at hlen ⊢; omega, ?_, ?_⟩
            · intro c' hc'
              exact hmids c' (by simpa using hc')
            · rcases hx : (c2 :: rest2).getLast? with - | x
              · exact absurd hx (by simp)
              · rw [hx] at hlast
                exact ⟨x, rfl, hlast⟩
      · rw [Bool.and_eq_true] at hb
        obtain ⟨hhead, htail⟩ := hb
        rw [dbname_tail_iff] at htail
        obtain ⟨-, hlen, hmids, x, hx, ha⟩ := htail
        symm
        unfold claim_rule_list
        simp only [Bool.and_eq_true, decide_eq_true_eq, List.head?_cons,
          List.getLast?_cons_cons, List.length_cons, List.all_eq_true]
        refine ⟨⟨⟨⟨by omega, by simp at hlen; omega⟩, hhead⟩, ?_⟩, ?_⟩
        · rw [hx]
          exact ha
        · intro c' hc'
          exact hmids c' (by simpa using hc')

/-- C3 counterexample: by the dollar-anchor semantics of Python re the
name consisting of a, b and a trailing newline is accepted by
check_dbname against an empty local database list, although its last
character is not alphanumeric, so the acceptance rule of the claim
rejects it. -/
theorem C3_name_validation_counterexample :
    check_dbname [] "ab\n" = true ∧ claim_name_rule "ab\n" = false := by
  exact ⟨by decide, by decide⟩

/-- C3 amended: check_dbname accepts a candidate name against the local
database list iff the name, or the name with one trailing newline
removed (an artefact of the dollar anchor in the Python regex), satisfies
the structural rule of the claim (length 2 to 20, first a letter, last
alphanumeric, interior in letters, digits, hyphen, underscore), the name
is not already in the list, and fewer than MAX_NUMBER_DB = 4 databases
exist. -/
theorem C3_name_validation_amended :
    ∀ (dblist : List String) (s : String),
    check_dbname dblist s = true ↔
      ((claim_name_rule s = true ∨
        (s.data.getLast? = some '\n' ∧
         claim_name_rule (String.mk s.data.dropLast) = true)) ∧
       s ∉ dblist ∧ dblist.length < MAX_NUMBER_DB) := by
  intro dblist s
  unfold check_dbname check_valid_dbname dbname_regex_match claim_name_rule
  rw [dbname_core_eq_claim_rule, dbname_core_eq_claim_rule]
  rw [show (String.mk s.data.dropLast).data = s.data.dropLast from rfl]
  simp only [Bool.and_eq_true, Bool.or_eq_true, decide_eq_true_eq,
    beq_iff_eq, Bool.not_eq_true', decide_eq_false_iff_not]
  tauto

/-- Remote file table giving the three metadata files and failing any
other name. -/
def mkFiles (sv us gr : FileData) : String → Except Unit FileData := fun n =>
  if n = "servers.dat" then .ok sv
  else if n = "users.dat" then .ok us
  else if n = "groups.dat" then .ok gr
  else .error ()

/-- C6: the metadata replication step copies exactly servers.dat,
users.dat and groups.dat from the remote endpoint into the directory
(byte-for-byte, that is, with their remote contents unchanged), appends
the record of the freshly minted uuid, the configured backend address,
the backend port and the assigned pool to the copied server list and
rewrites it, and creates the empty .reindex marker exactly when the
target is a brand-new pool; no other file of the directory changes. -/
theorem C6_replicate_metadata :
    ∀ (env : Env) (fs : FS) (uid : List Nat) (address : String)
      (port pool : Nat) (np : Bool) (l : List Qval) (us gr : FileData),
    env.files "servers.dat" = .ok (.qp (.arr l)) →
    env.files "users.dat" = .ok us →
    env.files "groups.dat" = .ok gr →
    ∃ fs', (replicate_metadata env fs uid address port pool np).2 = .ok fs' ∧
      fsRead fs' "servers.dat" =
        some (.qp (.arr (l ++ [.arr [.bytes uid, .bytesOfStr address,
          .int port, .int pool]]))) ∧
      fsRead fs' "users.dat" = some us ∧
      fsRead fs' "groups.dat" = some gr ∧
      fsRead fs' ".reindex" =
        (if np then some (.raw []) else fsRead fs ".reindex") ∧
      (∀ n, n ≠ "servers.dat" → n ≠ "users.dat" → n ≠ "groups.dat" →
        n ≠ ".reindex" → fsRead fs' n = fsRead fs n) := by
  intro env fs uid address port pool np l us gr hs hu hg
  simp only [replicate_metadata, hs, hu, hg]
  cases np with
  | false =>
    refine ⟨_, rfl, ?_, ?_, ?_, ?_, ?_⟩
    · simp [fsRead_fsWrite]
    · simp [fsRead_fsWrite]
    · simp [fsRead_fsWrite]
    · simp [fsRead_fsWrite]
    · intro n h1 h2 h3 h4
      simp [fsRead_fsWrite, Ne.symm h1, Ne.symm h2, Ne.symm h3]
  | true =>
    refine ⟨_, rfl, ?_, ?_, ?_, ?_, ?_⟩
    · simp [fsRead_fsWrite]
    · simp [fsRead_fsWrite]
    · simp [fsRead_fsWrite]
    · simp [fsRead_fsWrite]
    · intro n h1 h2 h3 h4
      simp [fsRead_fsWrite, Ne.symm h1, Ne.symm h2, Ne.symm h3, Ne.symm h4]

/-- Witness for C6 at a concrete remote state and new-pool target. -/
theorem C6_replicate_metadata_witness :
    ∃ fs', (replicate_metadata
        ⟨mkFiles (.qp (.arr [])) (.raw [1]) (.raw [2]), [], true, [], []⟩
        [] (List.replicate 16 7) "myhost" 9010 1 true).2 = .ok fs' ∧
      fsRead fs' "servers.dat" =
        some (.qp (.arr ([] ++ [.arr [.bytes (List.replicate 16 7),
          .bytesOfStr "myhost", .int 9010, .int 1]]))) ∧
      fsRead fs' "users.dat" = some (.raw [1]) ∧
      fsRead fs' "groups.dat" = some (.raw [2]) ∧
      fsRead fs' ".reindex" =
        (if true then some (.raw []) else fsRead [] ".reindex") ∧
      (∀ n, n ≠ "servers.dat" → n ≠ "users.dat" → n ≠ "groups.dat" →
        n ≠ ".reindex" → fsRead fs' n = fsRead [] n) :=
  C6_replicate_metadata
    ⟨mkFiles (.qp (.arr [])) (.raw [1]) (.raw [2]), [], true, [], []⟩
    [] (List.replicate 16 7) "myhost" 9010 1 true [] (.raw [1]) (.raw [2])
    rfl rfl rfl

/-- The temporal property claimed for the status check: every occurrence
of the server-status check in the trace comes after the load command. -/
def status_check_after_load (tr : List Action) : Prop :=
  ∀ i j, tr.get? i = some Action.checkServerStatus →
    tr.get? j = some Action.loadDb → j < i

/-- A fixed sixteen-byte uuid used in concrete runs. -/
def uid16 : List Nat := List.replicate 16 7

/-- An environment in which every external interaction succeeds. -/
def env_all_good : Env :=
  ⟨mkFiles (.qp (.arr [])) (.raw [1]) (.raw [2]),
   [("server0", "running")], true, ["mydb"], [RegStep.ok]⟩

/-- The fully successful interactive join run against env_all_good. -/
def run_all_good : Outcome :=
  create_and_register_server env_all_good "mydb" "/var/lib/siridb/mydb" "ms"
    (.str "1d") (.str "1w") "NAIVE" 1 ⟨some "/var/lib/siridb/mydb", none⟩
    uid16 "myhost" 9010 1 true true

/-- C7 counterexample: in a fully successful join run the server-status
check is performed before the load command and the load confirmation, not
after them, so the ordering asserted by the claim fails on this concrete
run (index 3 holds the status check and index 4 the load). -/
theorem C7_status_order_counterexample :
    run_all_good.exit = .code 0 ∧
    run_all_good.trace = [.fetchFile "servers.dat", .fetchFile "users.dat",
      .fetchFile "groups.dat", .checkServerStatus, .loadDb, .checkLoaded,
      .registerServer] ∧
    ¬ status_check_after_load run_all_good.trace := by
  refine ⟨by decide, by decide, fun h => ?_⟩
  have h34 := h 3 4 (by decide) (by decide)
  omega

/-- C7 amended: the all-servers-running check happens after the metadata
replication and before the Loading step; when some server is not running
the run ends with exit code 1, the directory is deleted, and neither the
load command nor the registration is ever attempted. -/
theorem C7_status_check_amended :
    ∀ (env : Env) (dbname dbpath tp : String) (dl dn : Dur) (tz : String)
      (dt : Rat) (cfg : Cfg) (uid : List Nat) (address : String)
      (port pool : Nat) (np ar : Bool) (l : List Qval) (us gr : FileData),
    (create_database [] dbname dbpath tp dl dn tz dt DEFAULT_BUFFER_SIZE cfg
      uid pool).2 = none →
    env.files "servers.dat" = .ok (.qp (.arr l)) →
    env.files "users.dat" = .ok us →
    env.files "groups.dat" = .ok gr →
    (env.servers_status.all fun s => s.2 == "running") = false →
    (create_and_register_server env dbname dbpath tp dl dn tz dt cfg uid
        address port pool np ar).trace = fetch3 ++ [.checkServerStatus] ∧
    (create_and_register_server env dbname dbpath tp dl dn tz dt cfg uid
        address port pool np ar).exit = .code 1 ∧
    (create_and_register_server env dbname dbpath tp dl dn tz dt cfg uid
        address port pool np ar).dirExists = false ∧
    Action.loadDb ∉ (create_and_register_server env dbname dbpath tp dl dn
        tz dt cfg uid address port pool np ar).trace ∧
    Action.registerServer ∉ (create_and_register_server env dbname dbpath
        tp dl dn tz dt cfg uid address port pool np ar).trace := by
  intro env dbname dbpath tp dl dn tz dt cfg uid address port pool np ar
    l us gr hp hs hu hg hrun
  have hred : create_and_register_server env dbname dbpath tp dl dn tz dt
      cfg uid address port pool np ar =
      ⟨.code 1, false, [], fetch3 ++ [.checkServerStatus]⟩ := by
    cases np with
    | false =>
      simp [create_and_register_server, hp, after_persist,
        replicate_metadata, hs, hu, hg, after_metadata, hrun, fsRead_fsWrite]
    | true =>
      simp [create_and_register_server, hp, after_persist,
        replicate_metadata, hs, hu, hg, after_metadata, hrun, fsRead_fsWrite]
  rw [hred]
  refine ⟨rfl, rfl, rfl, by decide, by decide⟩

/-- An environment identical to env_all_good except that one server
reports a status other than running. -/
def env_not_running : Env :=
  ⟨mkFiles (.qp (.arr [])) (.raw [1]) (.raw [2]),
   [("server0", "running"), ("server1", "synchronizing")], true, ["mydb"],
   [RegStep.ok]⟩

/-- Witness for C7 amended at env_not_running. -/
theorem C7_status_check_amended_witness :
    (create_and_register_server env_not_running "mydb" "/var/lib/siridb/mydb"
        "ms" (.str "1d") (.str "1w") "NAIVE" 1
        ⟨some "/var/lib/siridb/mydb", none⟩ uid16 "myhost" 9010 1 true
        true).trace = fetch3 ++ [.checkServerStatus] ∧
    (create_and_register_server env_not_running "mydb" "/var/lib/siridb/mydb"
        "ms" (.str "1d") (.str "1w") "NAIVE" 1
        ⟨some "/var/lib/siridb/mydb", none⟩ uid16 "myhost" 9010 1 true
        true).exit = .code 1 ∧
    (create_and_register_server env_not_running "mydb" "/var/lib/siridb/mydb"
        "ms" (.str "1d") (.str "1w") "NAIVE" 1
        ⟨some "/var/lib/siridb/mydb", none⟩ uid16 "myhost" 9010 1 true
        true).dirExists = false ∧
    Action.loadDb ∉ (create_and_register_server env_not_running "mydb"
        "/var/lib/siridb/mydb" "ms" (.str "1d") (.str "1w") "NAIVE" 1
        ⟨some "/var/lib/siridb/mydb", none⟩ uid16 "myhost" 9010 1 true
        true).trace ∧
    Action.registerServer ∉ (create_and_register_server env_not_running
        "mydb" "/var/lib/siridb/mydb" "ms" (.str "1d") (.str "1w") "NAIVE" 1
        ⟨some "/var/lib/siridb/mydb", none⟩ uid16 "myhost" 9010 1 true
        true).trace :=
  C7_status_check_amended env_not_running "mydb" "/var/lib/siridb/mydb"
    "ms" (.str "1d") (.str "1w") "NAIVE" 1 ⟨some "/var/lib/siridb/mydb", none⟩
    uid16 "myhost" 9010 1 true true [] (.raw [1]) (.raw [2])
    rfl rfl rfl rfl (by decide)

/-- When create_database raises nothing, the resulting directory is the
input plus database.conf and a database.dat descriptor whose fifth field
is the buffer size argument. -/
theorem create_database_ok_shape :
    ∀ (fs : FS) (dbname dbpath tp : String) (dl dn : Dur) (tz : String)
      (dt : Rat) (bs : Nat) (cfg : Cfg) (uid : List Nat) (pool : Nat),
    (create_database fs dbname dbpath tp dl dn tz dt bs cfg uid pool).2
      = none →
    ∃ dnum dlog,
      (create_database fs dbname dbpath tp dl dn tz dt bs cfg uid pool).1 =
        fsWrite (fsWrite fs "database.conf"
          (.text (format_default_config (cfg.buffer_path.getD dbpath))))
          "database.dat"
          (.qp (.arr [.int 1, .bytes uid, .str dbname,
            .int (get_time_precision tp), .int bs, .int dnum, .int dlog,
            .str tz, .float dt])) := by
  intro fs dbname dbpath tp dl dn tz dt bs cfg uid pool h
  rcases hcd : create_database fs dbname dbpath tp dl dn tz dt bs cfg uid
    pool with ⟨fs0, e⟩
  rw [hcd] at h
  simp only at h
  subst h
  simp only [create_database] at hcd
  split at hcd
  · exact absurd (congrArg Prod.snd hcd) (by simp)
  · split at hcd
    · exact absurd (congrArg Prod.snd hcd) (by simp)
    · split at hcd
      · exact absurd (congrArg Prod.snd hcd) (by simp)
      · split at hcd
        · exact absurd (congrArg Prod.snd hcd) (by simp)
        · rename_i s1 dnum hdn s2 dlog hdl
          refine ⟨dnum, dlog, ?_⟩
          have hfst := congrArg Prod.fst hcd
          simp only at hfst ⊢
          rw [← hfst]
          cases hbp : cfg.buffer_path <;> simp [Option.getD, hbp]

/-- An environment in which everything succeeds up to the load command,
which then fails (for example by its 10 second timeout). -/
def env_load_timeout : Env :=
  ⟨mkFiles (.qp (.arr [])) (.raw [1]) (.raw [2]),
   [("server0", "running")], false, [], []⟩

/-- The scripted join run against env_load_timeout. -/
def run_load_timeout : Outcome :=
  create_and_register_server env_load_timeout "mydb" "/var/lib/siridb/mydb"
    "ms" (.str "1d") (.str "1w") "NAIVE" 1 ⟨some "/var/lib/siridb/mydb", none⟩
    uid16 "myhost" 9010 1 true false

/-- C1 counterexample: when the Loading step fails after Persisting
succeeded, the exception is not routed through the rollback helper: the
run ends as an unhandled exception, the created directory still exists
and still contains the persisted descriptor, contradicting the claim
that the directory does not exist afterwards. -/
theorem C1_rollback_counterexample :
    run_load_timeout.exit = .unhandled ∧
    run_load_timeout.dirExists = true ∧
    (fsRead run_load_timeout.fs "database.dat").isSome = true := by
  exact ⟨by decide, by decide, by decide⟩

/-- C1 amended: failures of the remote file fetch, of the load
confirmation and of a scripted registration are routed through rollback,
which deletes the created directory and exits with code 1; an interactive
registration abort also rolls back but exits with code 0; an exception
raised by the Loading step itself (such as its timeout) is not routed
through rollback: it propagates unhandled and the created directory,
descriptor included, remains on disk. -/
theorem C1_rollback_amended :
    ∀ (env : Env) (dbname dbpath tp : String) (dl dn : Dur) (tz : String)
      (dt : Rat) (cfg : Cfg) (uid : List Nat) (address : String)
      (port pool : Nat) (np : Bool) (l : List Qval) (us gr : FileData),
    (create_database [] dbname dbpath tp dl dn tz dt DEFAULT_BUFFER_SIZE cfg
      uid pool).2 = none →
    ((env.files "servers.dat" = .error () → ∀ ar,
      (create_and_register_server env dbname dbpath tp dl dn tz dt cfg uid
        address port pool np ar).exit = .code 1 ∧
      (create_and_register_server env dbname dbpath tp dl dn tz dt cfg uid
        address port pool np ar).dirExists = false) ∧
     (env.files "servers.dat" = .ok (.qp (.arr l)) →
      env.files "users.dat" = .ok us →
      env.files "groups.dat" = .ok gr →
      (env.servers_status.all fun s => s.2 == "running") = true →
      (env.load_ok = false → ∀ ar,
        (create_and_register_server env dbname dbpath tp dl dn tz dt cfg uid
          address port pool np ar).exit = .unhandled ∧
        (create_and_register_server env dbname dbpath tp dl dn tz dt cfg uid
          address port pool np ar).dirExists = true ∧
        (fsRead (create_and_register_server env dbname dbpath tp dl dn tz dt
          cfg uid address port pool np ar).fs "database.dat").isSome
          = true) ∧
      (env.load_ok = true →
        (env.dblist_after_load.contains dbname = false → ∀ ar,
          (create_and_register_server env dbname dbpath tp dl dn tz dt cfg
            uid address port pool np ar).exit = .code 1 ∧
          (create_and_register_server env dbname dbpath tp dl dn tz dt cfg
            uid address port pool np ar).dirExists = false) ∧
        (env.dblist_after_load.contains dbname = true →
          (∀ b rest, env.reg_steps = RegStep.fail b :: rest →
            (create_and_register_server env dbname dbpath tp dl dn tz dt cfg
              uid address port pool np false).exit = .code 1 ∧
            (create_and_register_server env dbname dbpath tp dl dn tz dt cfg
              uid address port pool np false).dirExists = false) ∧
          (∀ rest, env.reg_steps = RegStep.fail false :: rest →
            (create_and_register_server env dbname dbpath tp dl dn tz dt cfg
              uid address port pool np true).exit = .code 0 ∧
            (create_and_register_server env dbname dbpath tp dl dn tz dt cfg
              uid address port pool np true).dirExists = false))))) := by
  intro env dbname dbpath tp dl dn tz dt cfg uid address port pool np
    l us gr hp
  constructor
  · intro ha ar
    constructor <;>
      simp [create_and_register_server, hp, after_persist,
        replicate_metadata, ha]
  · intro hs hu hg hrun
    constructor
    · intro hload ar
      obtain ⟨dnum, dlog, hshape⟩ := create_database_ok_shape [] dbname
        dbpath tp dl dn tz dt DEFAULT_BUFFER_SIZE cfg uid pool hp
      refine ⟨?_, ?_, ?_⟩ <;>
        cases np <;>
          simp [create_and_register_server, hp, after_persist,
            replicate_metadata, hs, hu, hg, after_metadata, hrun, hload,
            fsRead_fsWrite, hshape]
    · intro hload
      constructor
      · intro hmem ar
        have hmem2 : dbname ∉ env.dblist_after_load := by simpa using hmem
        constructor <;>
          cases np <;>
            simp [create_and_register_server, hp, after_persist,
              replicate_metadata, hs, hu, hg, after_metadata, hrun, hload,
              hmem2, fsRead_fsWrite]
      · intro hmem
        have hmem2 : dbname ∈ env.dblist_after_load := by simpa using hmem
        constructor
        · intro b rest hreg
          constructor <;>
            cases np <;>
              simp [create_and_register_server, hp, after_persist,
                replicate_metadata, hs, hu, hg, after_metadata, hrun, hload,
                hmem2, hreg, register_loop, fsRead_fsWrite]
        · intro rest hreg
          constructor <;>
            cases np <;>
              simp [create_and_register_server, hp, after_persist,
                replicate_metadata, hs, hu, hg, after_metadata, hrun, hload,
                hmem2, hreg, register_loop, fsRead_fsWrite]

/-- Witness for C1 amended: at env_load_timeout the load failure leaves
the directory with its descriptor and the run ends unhandled. -/
theorem C1_rollback_amended_witness :
    (create_and_register_server env_load_timeout "mydb"
      "/var/lib/siridb/mydb" "ms" (.str "1d") (.str "1w") "NAIVE" 1
      ⟨some "/var/lib/siridb/mydb", none⟩ uid16 "myhost" 9010 1 true
      false).exit = .unhandled ∧
    (create_and_register_server env_load_timeout "mydb"
      "/var/lib/siridb/mydb" "ms" (.str "1d") (.str "1w") "NAIVE" 1
      ⟨some "/var/lib/siridb/mydb", none⟩ uid16 "myhost" 9010 1 true
      false).dirExists = true ∧
    (fsRead (create_and_register_server env_load_timeout "mydb"
      "/var/lib/siridb/mydb" "ms" (.str "1d") (.str "1w") "NAIVE" 1
      ⟨some "/var/lib/siridb/mydb", none⟩ uid16 "myhost" 9010 1 true
      false).fs "database.dat").isSome = true :=
  ((C1_rollback_amended env_load_timeout "mydb" "/var/lib/siridb/mydb" "ms"
    (.str "1d") (.str "1w") "NAIVE" 1 ⟨some "/var/lib/siridb/mydb", none⟩
    uid16 "myhost" 9010 1 true [] (.raw [1]) (.raw [2]) rfl).2
    rfl rfl rfl (by decide)).1 rfl false

/-- create_new_database of main.py (lines 853-866) restricted to its
persisting step: both the interactive form and the scripted create-new
flow call create_database with only the name, path, precision, durations
and config mapping, so every omitted Python keyword argument takes its
default, buffer_size included. -/
def create_new_database (fs : FS) (dbname dbpath tp : String)
    (dl dn : Dur) (cfg : Cfg) (uid : List Nat) : FS × Option PyErr :=
  create_database fs dbname dbpath tp dl dn DEFAULT_TIMEZONE
    DEFAULT_DROP_THRESHOLD DEFAULT_BUFFER_SIZE cfg uid 0

/-- A successful metadata replication only touches the three copied
files and the reindex marker; every other file reads as before. -/
theorem replicate_metadata_ok_read :
    ∀ (env : Env) (fs : FS) (uid : List Nat) (address : String)
      (port pool : Nat) (np : Bool) (tr : List Action) (fs' : FS),
    replicate_metadata env fs uid address port pool np = (tr, .ok fs') →
    ∀ n, n ≠ "servers.dat" → n ≠ "users.dat" → n ≠ "groups.dat" →
      n ≠ ".reindex" → fsRead fs' n = fsRead fs n := by
  intro env fs uid address port pool np tr fs' heq n h1 h2 h3 h4
  simp only [replicate_metadata] at heq
  split at heq
  · exact absurd (congrArg Prod.snd heq) (by simp)
  · split at heq
    · exact absurd (congrArg Prod.snd heq) (by simp)
    · split at heq
      · exact absurd (congrArg Prod.snd heq) (by simp)
      · split at heq
        · have hsnd := congrArg Prod.snd heq
          simp only at hsnd
          rw [← RMRes.ok.inj hsnd]
          cases np <;>
            simp [fsRead_fsWrite, Ne.symm h1, Ne.symm h2, Ne.symm h3,
              Ne.symm h4]
        · exact absurd (congrArg Prod.snd heq) (by simp)

/-- C9: the buffer size persisted in the descriptor is always the default
1024: the create flows and the join flow never pass the user buffer size
to create_database (it lives only in the config mapping, which the config
template ignores), so every run outcome is independent of the buffer_size
entry in the mapping and every successfully persisted descriptor carries
1024 in its buffer-size field. -/
theorem C9_descriptor_buffer_size :
    (∀ (fs : FS) (dbname dbpath tp : String) (dl dn : Dur)
       (bp : Option String) (b1 b2 : Option Nat) (uid : List Nat),
      create_new_database fs dbname dbpath tp dl dn ⟨bp, b1⟩ uid =
        create_new_database fs dbname dbpath tp dl dn ⟨bp, b2⟩ uid) ∧
    (∀ (fs : FS) (dbname dbpath tp : String) (dl dn : Dur) (cfg : Cfg)
       (uid : List Nat),
      (create_new_database fs dbname dbpath tp dl dn cfg uid).2 = none →
      ∃ r, fsRead (create_new_database fs dbname dbpath tp dl dn cfg uid).1
          "database.dat" = some (.qp (.arr r)) ∧
        r.get? 4 = some (.int 1024)) ∧
    (∀ (env : Env) (dbname dbpath tp : String) (dl dn : Dur) (tz : String)
       (dt : Rat) (bp : Option String) (b1 b2 : Option Nat)
       (uid : List Nat) (address : String) (port pool : Nat) (np ar : Bool),
      create_and_register_server env dbname dbpath tp dl dn tz dt ⟨bp, b1⟩
          uid address port pool np ar =
        create_and_register_server env dbname dbpath tp dl dn tz dt ⟨bp, b2⟩
          uid address port pool np ar) ∧
    (∀ (env : Env) (dbname dbpath tp : String) (dl dn : Dur) (tz : String)
       (dt : Rat) (cfg : Cfg) (uid : List Nat) (address : String)
       (port pool : Nat) (np ar : Bool),
      (create_and_register_server env dbname dbpath tp dl dn tz dt cfg uid
        address port pool np ar).exit = .code 0 →
      (create_and_register_server env dbname dbpath tp dl dn tz dt cfg uid
        address port pool np ar).dirExists = true →
      ∃ r, fsRead (create_and_register_server env dbname dbpath tp dl dn tz
          dt cfg uid address port pool np ar).fs "database.dat" =
          some (.qp (.arr r)) ∧
        r.get? 4 = some (.int 1024)) := by
  refine ⟨fun fs dbname dbpath tp dl dn bp b1 b2 uid => rfl,
    ?_, fun env dbname dbpath tp dl dn tz dt bp b1 b2 uid address port pool
      np ar => rfl, ?_⟩
  · intro fs dbname dbpath tp dl dn cfg uid h
    obtain ⟨dnum, dlog, hshape⟩ := create_database_ok_shape fs dbname dbpath
      tp dl dn DEFAULT_TIMEZONE DEFAULT_DROP_THRESHOLD DEFAULT_BUFFER_SIZE
      cfg uid 0 h
    refine ⟨[Qval.int 1, Qval.bytes uid, Qval.str dbname,
      Qval.int (get_time_precision tp : Int),
      Qval.int (DEFAULT_BUFFER_SIZE : Int), Qval.int dnum, Qval.int dlog,
      Qval.str DEFAULT_TIMEZONE, Qval.float DEFAULT_DROP_THRESHOLD],
      ?_, ?_⟩
    · show fsRead (create_database fs dbname dbpath tp dl dn DEFAULT_TIMEZONE
        DEFAULT_DROP_THRESHOLD DEFAULT_BUFFER_SIZE cfg uid 0).1
        "database.dat" = _
      rw [hshape, fsRead_fsWrite]
      simp
    · simp [DEFAULT_BUFFER_SIZE]
  · intro env dbname dbpath tp dl dn tz dt cfg uid address port pool np ar
      hexit hdir
    rcases hp : (create_database [] dbname dbpath tp dl dn tz dt
      DEFAULT_BUFFER_SIZE cfg uid pool).2 with - | e
    · obtain ⟨dnum, dlog, hshape⟩ := create_database_ok_shape [] dbname
        dbpath tp dl dn tz dt DEFAULT_BUFFER_SIZE cfg uid pool hp
      have hrun : create_and_register_server env dbname dbpath tp dl dn tz
          dt cfg uid address port pool np ar =
          after_persist env dbname (create_database [] dbname dbpath tp dl
            dn tz dt DEFAULT_BUFFER_SIZE cfg uid pool).1 uid address port
            pool np ar := by
        simp [create_and_register_server, hp]
      rw [hrun] at hexit hdir ⊢
      unfold after_persist at hexit hdir ⊢
      split at hexit
      · exact absurd hexit (by simp)
      · exact absurd hexit (by simp)
      · rename_i tr fs5 heq
        have hread := replicate_metadata_ok_read env _ uid address port
          pool np tr fs5 heq "database.dat" (by decide) (by decide)
          (by decide) (by decide)
        rw [heq] at hdir
        replace hdir : (after_metadata env dbname fs5
            (tr ++ [Action.checkServerStatus]) ar).dirExists = true := hdir
        simp only [after_metadata] at hexit hdir ⊢
        split
        · rename_i hc1
          simp [hc1] at hexit
        · rename_i hc1
          split
          · rename_i hc2
            simp [hc1, hc2] at hexit
          · rename_i hc2
            split
            · rename_i hc3
              have hm : dbname ∉ env.dblist_after_load := by simpa using hc3
              simp [hc1, hc2, hm] at hexit
            · rename_i hc3
              have hm : dbname ∈ env.dblist_after_load := by simpa using hc3
              split
              · rename_i heq2
                refine ⟨[Qval.int 1, Qval.bytes uid, Qval.str dbname,
                  Qval.int (get_time_precision tp : Int),
                  Qval.int (DEFAULT_BUFFER_SIZE : Int), Qval.int dnum,
                  Qval.int dlog, Qval.str tz, Qval.float dt], ?_, ?_⟩
                · show fsRead fs5 "database.dat" = _
                  rw [hread, hshape, fsRead_fsWrite]
                  simp
                · simp [DEFAULT_BUFFER_SIZE]
              · rename_i heq2
                simp [hc1, hc2, hm, heq2] at hdir
              · rename_i heq2
                simp [hc1, hc2, hm, heq2] at hexit
              · rename_i heq2
                simp [hc1, hc2, hm, heq2] at hexit
    · exact absurd hexit (by simp [create_and_register_server, hp])

/-- Witness for C9 at the fully successful join run: the persisted
descriptor carries buffer size 1024. -/
theorem C9_descriptor_buffer_size_witness :
    ∃ r, fsRead (create_and_register_server env_all_good "mydb"
        "/var/lib/siridb/mydb" "ms" (.str "1d") (.str "1w") "NAIVE" 1
        ⟨some "/var/lib/siridb/mydb", none⟩ uid16 "myhost" 9010 1 true
        true).fs "database.dat" = some (.qp (.arr r)) ∧
      r.get? 4 = some (.int 1024) :=
  C9_descriptor_buffer_size.2.2.2 env_all_good "mydb" "/var/lib/siridb/mydb"
    "ms" (.str "1d") (.str "1w") "NAIVE" 1 ⟨some "/var/lib/siridb/mydb", none⟩
    uid16 "myhost" 9010 1 true true (by decide) (by decide)

end SiriDBManage
